import Mathlib

/-!
# Shallow embedding of `CodeFileGenerator`
(`Source/ArticyEditor/Private/CodeGeneration/CodeFileGenerator.cpp`)

The generator accumulates output text in `FileContent`, tracks the current
indent depth (`IndentCount`) and the number of currently open braces
(`BlockCount`), and finally commits the text to disk in `WriteToFile`,
cooperating with a source-control provider.

State mutation is modelled by explicit state passing on `GenState`; the
`UE_LOG` diagnostics channel is modelled as a list of recorded messages;
the file system and source control are modelled by an environment record
`WriteEnv` consumed by `WriteToFile`, which returns the trace of external
calls (`CheckOutFile`, `SaveStringToFile`, `MarkFileForAdd`) it performs.
-/

/-- State of one `CodeFileGenerator` instance: the members `FileContent`,
`IndentCount`, `BlockCount` and `Path` of the C++ class, plus the list of
diagnostics it has logged via `UE_LOG` (modelled explicitly). -/
structure GenState where
  FileContent : String
  IndentCount : Nat
  BlockCount : Nat
  diagnostics : List String
  Path : String
deriving DecidableEq, Repr

/-- `n` tab characters, as produced by the indenting loop in
`CodeFileGenerator::Line`. -/
def tabs (n : Nat) : String :=
  String.mk (List.replicate n '\t')

/-- `CodeFileGenerator::Line`: append `IndentCount + IndentOffset` tabs when
`bIndent` (the C++ `for` loop runs zero times when the sum is negative, hence
`Int.toNat`), then the text, an optional semicolon, and a newline. -/
def Line (s : GenState) (LineText : String) (bSemicolon : Bool) (bIndent : Bool)
    (IndentOffset : Int) : GenState :=
  { s with FileContent := s.FileContent
      ++ (if bIndent then tabs ((s.IndentCount : Int) + IndentOffset).toNat else "")
      ++ LineText ++ (if bSemicolon then ";" else "") ++ "\n" }

/-- `CodeFileGenerator::Comment`. Trailing arguments of `Line` are the
default values of its declaration. -/
def Comment (s : GenState) (Text : String) : GenState :=
  Line s ("/** " ++ Text ++ " */") false true 0

/-- `CodeFileGenerator::UPropertyMacro`. -/
def UPropertyMacroLine (s : GenState) (Specifiers : String) : GenState :=
  Line s ("UPROPERTY(" ++ Specifiers ++ ")") false true 0

/-- Modelled from the spec: `PushIndent` is declared in `CodeFileGenerator.h`,
which is not among the sources. Spec §4.2: adjust indent depth by +1. -/
def PushIndent (s : GenState) : GenState :=
  { s with IndentCount := s.IndentCount + 1 }

/-- Modelled from the spec: `PopIndent` is declared in `CodeFileGenerator.h`,
which is not among the sources. Spec §4.2: adjust indent depth by -1;
`PopIndent` below zero is a no-op with a reported inconsistency. -/
def PopIndent (s : GenState) : GenState :=
  if s.IndentCount == 0 then
    { s with diagnostics := s.diagnostics ++ ["Indent underflow"] }
  else
    { s with IndentCount := s.IndentCount - 1 }

/-- `CodeFileGenerator::StartBlock`: increment `BlockCount`, emit the opening
brace line, optionally push an indent level. -/
def StartBlock (s : GenState) (bIndent : Bool) : GenState :=
  let s1 := { s with BlockCount := s.BlockCount + 1 }
  let s2 := Line s1 "\x7b" false true 0
  if bIndent then PushIndent s2 else s2

/-- `CodeFileGenerator::EndBlock`: when `BlockCount` is zero, log
"Block end missmatch!" (sic) and do not decrement; otherwise decrement.
Then optionally pop an indent level, and emit the closing brace line,
optionally semicolon-terminated. -/
def EndBlock (s : GenState) (bUnindent bSemicolon : Bool) : GenState :=
  let s1 :=
    if s.BlockCount == 0 then
      { s with diagnostics := s.diagnostics ++ ["Block end missmatch!"] }
    else
      { s with BlockCount := s.BlockCount - 1 }
  let s2 := if bUnindent then PopIndent s1 else s1
  Line s2 "\x7d" bSemicolon true 0

/-- The static `ReservedNames` array in `CodeFileGenerator::Variable`. -/
def ReservedNames : List String :=
  ["Text", "DisplayName", "MenuText", "CreatedBy", "StageDirections"]

/-- `ReservedNames.Contains(Name)`: `TArray<FString>::Contains` compares
elements with `FString::operator==`, which is case-insensitive
(`Stricmp`-based), so both sides are folded to lower case before comparing.
(`FString::Equals` with its case-sensitive default, used elsewhere in this
file, is modelled by plain `==` instead.) -/
def ReservedNamesContains (Name : String) : Bool :=
  ReservedNames.any
    (fun R => R.toList.map Char.toLower == Name.toList.map Char.toLower)

/-- Helper for `SplitName`: walk the characters; the flag records whether we
are past the first character (the C++ condition `i > 0`). -/
def splitNameGo : List Char → Bool → String
  | [], _ => ""
  | c :: rest, afterFirst =>
      (if c.isUpper && afterFirst then " " else "")
        ++ String.singleton c ++ splitNameGo rest true

/-- `CodeFileGenerator::SplitName`: insert a space before every uppercase
character that is not at position 0. -/
def SplitName (Name : String) : String :=
  splitNameGo Name.toList false

/-- `CodeFileGenerator::Variable`: optional comment, optional `UPROPERTY`
line, the `Type Name [= Value];` declaration line, and — when the property
is a `UPROPERTY` of type `FText` whose name is not reserved — the derived
localized-text accessor (a `UFUNCTION` annotation line and the
`Get<Name>` method line delegating to `GetPropertyText`). -/
def Variable (s : GenState) (Type_ Name Value CommentText : String)
    (bUproperty : Bool) (UpropertySpecifiers : String) : GenState :=
  let s1 := if CommentText.isEmpty then s else Comment s CommentText
  let s2 := if bUproperty then UPropertyMacroLine s1 UpropertySpecifiers else s1
  let str := Type_ ++ " " ++ Name ++ (if Value.isEmpty then "" else " = " ++ Value)
  let s3 := Line s2 str true true 0
  if bUproperty && Type_ == "FText" then
    if ReservedNamesContains Name then s3
    else
      let s4 := Line s3
        ("UFUNCTION(BlueprintPure, meta=(DisplayName=\"Get " ++ SplitName Name
          ++ " (Localized)\"))") false true 0
      Line s4 (Type_ ++ " Get" ++ Name ++ "() \x7b return GetPropertyText("
          ++ Name ++ "); \x7d") false true 0
  else s3

/-- Environment `WriteToFile` runs against: whether the target file exists
(and, if so, the content `LoadFileToString` reads back), whether source
control is enabled, whether the provider uses checkout, and whether
`SaveStringToFile` succeeds. -/
structure WriteEnv where
  existing : Option String
  scEnabled : Bool
  usesCheckout : Bool
  writeSucceeds : Bool
deriving DecidableEq, Repr

/-- An external call performed by `WriteToFile`. -/
inductive FileEffect
  | checkOut : String → FileEffect
  | write : String → String → FileEffect
  | markForAdd : String → FileEffect
deriving DecidableEq, Repr

/-- `CodeFileGenerator::WriteToFile`, returning the trace of external calls.
Faithful to the source: `bFileExisted` is initialised to `false` and — as in
the C++ — never assigned afterwards, not even inside the `FileExists` branch.
The `BlockCount > 0` warning log is a pure diagnostic with no external call,
so it does not appear in the trace. -/
def WriteToFile (s : GenState) (env : WriteEnv) : List FileEffect :=
  if s.FileContent.isEmpty then []
  else
    let bFileExisted := false
    let bSkipUnchanged :=
      match env.existing with
      | some OldContent => s.FileContent == OldContent
      | none => false
    if bSkipUnchanged then []
    else
      let bCheckOutEnabled := env.scEnabled && env.usesCheckout
      let checkOutCalls :=
        if bFileExisted && bCheckOutEnabled then [FileEffect.checkOut s.Path] else []
      let bFileWritten := env.writeSucceeds
      let markForAddCalls :=
        if !bFileExisted && bFileWritten && env.scEnabled then
          [FileEffect.markForAdd s.Path]
        else []
      checkOutCalls ++ [FileEffect.write s.Path s.FileContent] ++ markForAddCalls

/-- One block-structure operation: a `StartBlock` call or an `EndBlock`
call, with their boolean arguments. -/
inductive BlockOp
  | start : Bool → BlockOp
  | finish : Bool → Bool → BlockOp
deriving DecidableEq, Repr

/-- Run one block operation on the generator state. -/
def runOp (s : GenState) : BlockOp → GenState
  | BlockOp.start b => StartBlock s b
  | BlockOp.finish u t => EndBlock s u t

/-- Run a sequence of block operations. -/
def runOps (s : GenState) (ops : List BlockOp) : GenState :=
  ops.foldl runOp s

/-- BalancedOps sequences of `StartBlock`/`EndBlock` calls: each `StartBlock`
is matched by a later `EndBlock` whose unindent flag equals the start's
indent flag. -/
inductive BalancedOps : List BlockOp → Prop
  | nil : BalancedOps []
  | wrap (b t : Bool) (inner : List BlockOp) :
      BalancedOps inner → BalancedOps ([BlockOp.start b] ++ inner ++ [BlockOp.finish b t])
  | append (l r : List BlockOp) :
      BalancedOps l → BalancedOps r → BalancedOps (l ++ r)

/-! ## Theorems about the persistence gate (`WriteToFile`) -/

/-- Claim C1: the claim says a commit on an existing, differing file with
version control enabled and a checkout-requiring provider performs exactly
one `CheckOut` before the write. Evaluating `WriteToFile` at exactly such an
input shows the trace contains no `CheckOut` call at all: `bFileExisted` is
initialised to `false` and never updated, so the checkout branch is dead,
contradicting the source's own comment "try check out the file if it
existed". -/
theorem WriteToFile_no_checkout_on_existing_file :
    WriteToFile { FileContent := "new content", IndentCount := 0, BlockCount := 0,
                  diagnostics := [], Path := "P.h" }
        { existing := some "old content", scEnabled := true, usesCheckout := true,
          writeSucceeds := true }
      = [FileEffect.write "P.h" "new content", FileEffect.markForAdd "P.h"] := by
  decide

/-- Claim C2 (counterexample): with source control disabled, a run in which
the underlying write fails produces exactly the same observable outcome as a
run in which it succeeds, so the failure is not surfaced to the caller in any
form (the C++ function returns `void` and ignores every capability result
except using `bFileWritten` to gate `MarkFileForAdd`). -/
theorem WriteToFile_failure_indistinguishable :
    WriteToFile { FileContent := "new", IndentCount := 0, BlockCount := 0,
                  diagnostics := [], Path := "P.h" }
        { existing := some "old", scEnabled := false, usesCheckout := false,
          writeSucceeds := false }
      = WriteToFile
          { FileContent := "new", IndentCount := 0, BlockCount := 0,
            diagnostics := [], Path := "P.h" }
          { existing := some "old", scEnabled := false, usesCheckout := false,
            writeSucceeds := true } := by
  decide

/-- Claim C2 (amended): `WriteToFile` surfaces no read/write/checkout failure
to its caller: it returns no result, and with source control disabled its
entire behaviour is independent of whether the underlying write succeeds or
fails; the write's success flag is only used internally to gate
`MarkFileForAdd`. -/
theorem WriteToFile_swallows_write_failure (s : GenState) (ex : Option String)
    (uc b1 b2 : Bool) :
    WriteToFile s { existing := ex, scEnabled := false, usesCheckout := uc,
                    writeSucceeds := b1 }
      = WriteToFile s
          { existing := ex, scEnabled := false, usesCheckout := uc,
            writeSucceeds := b2 } := by
  simp [WriteToFile]

/-- Claim C4: if the generated text is empty, or the target file exists with
content byte-identical to the generated text, `WriteToFile` performs no
external call at all — no write, no checkout, no mark-for-add; the on-disk
file is untouched (the `Skipped` outcome). -/
theorem WriteToFile_skips_empty_or_unchanged (s : GenState) (env : WriteEnv)
    (h : s.FileContent.isEmpty = true ∨ env.existing = some s.FileContent) :
    WriteToFile s env = [] := by
  rcases h with h | h
  · simp [WriteToFile, h]
  · by_cases he : s.FileContent.isEmpty
    · simp [WriteToFile, he]
    · simp [WriteToFile, he, h]

/-- Witness for C4 at a concrete input: unchanged content is skipped. -/
theorem WriteToFile_skips_empty_or_unchanged_witness :
    WriteToFile { FileContent := "abc", IndentCount := 0, BlockCount := 0,
                  diagnostics := [], Path := "P.h" }
        { existing := some "abc", scEnabled := true, usesCheckout := true,
          writeSucceeds := true }
      = [] :=
  WriteToFile_skips_empty_or_unchanged _ _ (Or.inr rfl)

/-- Claim C5 (counterexample): a commit on a Document with empty generated
text whose target path does not exist, with version control enabled, performs
zero writes and zero `MarkForAdd` calls — not "exactly one write followed by
exactly one `MarkForAdd`" as the claim states for every such commit. -/
theorem WriteToFile_empty_doc_no_write :
    WriteToFile { FileContent := "", IndentCount := 0, BlockCount := 0,
                  diagnostics := [], Path := "P.h" }
        { existing := none, scEnabled := true, usesCheckout := true,
          writeSucceeds := true }
      = [] := by
  decide

/-- Claim C5 (amended): a commit on a Document with nonempty generated text
whose target path does not exist, with version control enabled, performs
exactly one write, zero `CheckOut` calls, and exactly one `MarkForAdd` call
after the write if the write succeeded (none if it failed). -/
theorem WriteToFile_new_file_write_then_markForAdd (s : GenState) (env : WriteEnv)
    (h1 : s.FileContent.isEmpty = false) (h2 : env.existing = none)
    (h3 : env.scEnabled = true) :
    WriteToFile s env
      = FileEffect.write s.Path s.FileContent ::
          (if env.writeSucceeds then [FileEffect.markForAdd s.Path] else []) := by
  cases hw : env.writeSucceeds <;>
    simp [WriteToFile, h1, h2, h3, hw]

/-- Witness for the amended C5 at a concrete input. -/
theorem WriteToFile_new_file_write_then_markForAdd_witness :
    WriteToFile { FileContent := "abc", IndentCount := 0, BlockCount := 0,
                  diagnostics := [], Path := "P.h" }
        { existing := none, scEnabled := true, usesCheckout := true,
          writeSucceeds := true }
      = [FileEffect.write "P.h" "abc", FileEffect.markForAdd "P.h"] :=
  WriteToFile_new_file_write_then_markForAdd _ _ rfl rfl rfl

/-- Claim C9: whenever `WriteToFile` reaches the write (nonempty content, no
identical existing content), the write succeeds and source control is
enabled, the trace is exactly one write followed by one `MarkForAdd` — also
when the target file already existed with different content, because
`bFileExisted` is never set to `true`. -/
theorem WriteToFile_markForAdd_after_successful_write (s : GenState)
    (env : WriteEnv) (h1 : s.FileContent.isEmpty = false)
    (h2 : env.existing ≠ some s.FileContent) (h3 : env.scEnabled = true)
    (h4 : env.writeSucceeds = true) :
    WriteToFile s env
      = [FileEffect.write s.Path s.FileContent, FileEffect.markForAdd s.Path] := by
  cases hE : env.existing with
  | none => simp [WriteToFile, h1, h3, h4, hE]
  | some old =>
      have hne : s.FileContent ≠ old := by
        intro hh
        exact h2 (by rw [hE, hh])
      simp [WriteToFile, h1, h3, h4, hE, hne]

/-- Witness for C9 at a concrete input where the target file already existed
with different content: it is still marked for add. -/
theorem WriteToFile_markForAdd_after_successful_write_witness :
    (some "old" ≠ some "new") ∧
    WriteToFile { FileContent := "new", IndentCount := 0, BlockCount := 0,
                  diagnostics := [], Path := "P.h" }
        { existing := some "old", scEnabled := true, usesCheckout := false,
          writeSucceeds := true }
      = [FileEffect.write "P.h" "new", FileEffect.markForAdd "P.h"] :=
  ⟨by decide,
   WriteToFile_markForAdd_after_successful_write _ _ rfl (by decide) rfl rfl⟩

/-! ## Theorems about `SplitName` -/

/-- Claim C3 (counterexample): `SplitName` is not idempotent on already-split
input: `SplitName "DisplayName" = "Display Name"`, but applying `SplitName`
again inserts a second space before the interior uppercase token, giving
`"Display  Name"`. -/
theorem SplitName_not_idempotent :
    SplitName (SplitName "DisplayName") ≠ SplitName "DisplayName" := by
  decide

/-- Claim C3 (amended): `SplitName "DisplayName" = "Display Name"`, but
`SplitName` is not idempotent on already-split input consisting of single
uppercase-initial tokens separated by single spaces: it inserts an additional
space before each interior uppercase-initial token, so a second application
yields `"Display  Name"` (two spaces). -/
theorem SplitName_displayName_and_double_split :
    SplitName "DisplayName" = "Display Name" ∧
    SplitName (SplitName "DisplayName") = "Display  Name" := by
  constructor <;> decide

/-! ## Theorems about the indent/block tracker -/

/-- String append is associative (helper). -/
theorem str_append_assoc (a b c : String) : a ++ b ++ c = a ++ (b ++ c) := by
  rcases a with ⟨da⟩
  rcases b with ⟨db⟩
  rcases c with ⟨dc⟩
  show String.mk (da ++ db ++ dc) = String.mk (da ++ (db ++ dc))
  rw [List.append_assoc]

/-- Claim C7: an `EndBlock` call issued when `BlockCount` is zero leaves
`BlockCount` at zero (never negative), records the "Block end missmatch!"
diagnostic, and still emits the closing brace line (optionally unindented
and semicolon-terminated). -/
theorem EndBlock_mismatch_keeps_zero (s : GenState) (u t : Bool)
    (h : s.BlockCount = 0) :
    (EndBlock s u t).BlockCount = 0 ∧
    (s.diagnostics ++ ["Block end missmatch!"]) <+: (EndBlock s u t).diagnostics ∧
    (EndBlock s u t).FileContent
      = s.FileContent ++ tabs (if u then s.IndentCount - 1 else s.IndentCount)
          ++ "\x7d" ++ (if t then ";" else "") ++ "\n" := by
  cases u with
  | false =>
      simp [EndBlock, Line, h, str_append_assoc]
  | true =>
      by_cases hi : s.IndentCount = 0 <;>
        simp [EndBlock, Line, PopIndent, h, hi, str_append_assoc,
          List.prefix_append, List.prefix_refl]

/-- Witness for C7 at a concrete input. -/
theorem EndBlock_mismatch_keeps_zero_witness :
    (EndBlock { FileContent := "", IndentCount := 1, BlockCount := 0,
                diagnostics := [], Path := "p" } true true).BlockCount = 0 ∧
    (([] : List String) ++ ["Block end missmatch!"]) <+:
      (EndBlock { FileContent := "", IndentCount := 1, BlockCount := 0,
                  diagnostics := [], Path := "p" } true true).diagnostics ∧
    (EndBlock { FileContent := "", IndentCount := 1, BlockCount := 0,
                diagnostics := [], Path := "p" } true true).FileContent
      = "" ++ tabs 0 ++ "\x7d" ++ ";" ++ "\n" :=
  EndBlock_mismatch_keeps_zero _ true true rfl

/-- Claim C10: an `EndBlock` call with `bUnindent = true` issued when
`BlockCount` is zero still performs `PopIndent`: for positive indent depth,
the depth decreases by one while `BlockCount` stays where it was (zero), so
indent depth and open-block count diverge from lockstep. -/
theorem EndBlock_mismatch_pops_indent (s : GenState) (t : Bool)
    (h : s.BlockCount = 0) (hi : 0 < s.IndentCount) :
    (EndBlock s true t).IndentCount = s.IndentCount - 1 ∧
    (EndBlock s true t).BlockCount = s.BlockCount := by
  have hi0 : ¬ s.IndentCount = 0 := by omega
  simp [EndBlock, PopIndent, Line, h, hi0]

/-- Witness for C10 at a concrete input. -/
theorem EndBlock_mismatch_pops_indent_witness :
    (0 : Nat) < 1 ∧
    ((EndBlock { FileContent := "", IndentCount := 1, BlockCount := 0,
                 diagnostics := [], Path := "p" } true false).IndentCount = 0 ∧
     (EndBlock { FileContent := "", IndentCount := 1, BlockCount := 0,
                 diagnostics := [], Path := "p" } true false).BlockCount = 0) :=
  ⟨by decide,
   EndBlock_mismatch_pops_indent _ false rfl (by decide)⟩

/-- `runOps` distributes over list append (helper). -/
theorem runOps_append (s : GenState) (l r : List BlockOp) :
    runOps s (l ++ r) = runOps (runOps s l) r := by
  simp [runOps, List.foldl_append]

/-- `StartBlock` increments the open-block count (helper). -/
theorem StartBlock_BlockCount (s : GenState) (b : Bool) :
    (StartBlock s b).BlockCount = s.BlockCount + 1 := by
  cases b <;> simp [StartBlock, Line, PushIndent]

/-- `StartBlock` bumps the indent depth exactly when asked to (helper). -/
theorem StartBlock_IndentCount (s : GenState) (b : Bool) :
    (StartBlock s b).IndentCount = s.IndentCount + (if b then 1 else 0) := by
  cases b <;> simp [StartBlock, Line, PushIndent]

/-- `EndBlock` on a positive open-block count decrements it and pops the
indent depth exactly when asked to (helper; `Nat` subtraction absorbs the
`PopIndent` clamp at zero). -/
theorem EndBlock_counts (s : GenState) (b t : Bool) (h : s.BlockCount ≠ 0) :
    (EndBlock s b t).BlockCount = s.BlockCount - 1 ∧
    (EndBlock s b t).IndentCount
      = (if b then s.IndentCount - 1 else s.IndentCount) := by
  cases b with
  | false => simp [EndBlock, Line, h]
  | true =>
      by_cases hi : s.IndentCount = 0 <;>
        simp [EndBlock, Line, PopIndent, h, hi]

/-- Balanced block sequences preserve both counters from any start state
(helper, proved by induction on the balancing derivation). -/
theorem balancedOps_preserve (ops : List BlockOp) (hb : BalancedOps ops) :
    ∀ s : GenState,
      (runOps s ops).BlockCount = s.BlockCount ∧
      (runOps s ops).IndentCount = s.IndentCount := by
  induction hb with
  | nil =>
      intro s
      simp [runOps]
  | wrap b t inner hinner ih =>
      intro s
      have e : runOps s ([BlockOp.start b] ++ inner ++ [BlockOp.finish b t])
          = EndBlock (runOps (StartBlock s b) inner) b t := by
        rw [runOps_append, runOps_append]
        simp [runOps, runOp]
      rw [e]
      obtain ⟨ihc, ihi⟩ := ih (StartBlock s b)
      have hc : (runOps (StartBlock s b) inner).BlockCount = s.BlockCount + 1 := by
        rw [ihc, StartBlock_BlockCount]
      have hii : (runOps (StartBlock s b) inner).IndentCount
          = s.IndentCount + (if b then 1 else 0) := by
        rw [ihi, StartBlock_IndentCount]
      have hne : (runOps (StartBlock s b) inner).BlockCount ≠ 0 := by omega
      obtain ⟨ec, ei⟩ := EndBlock_counts _ b t hne
      constructor
      · rw [ec, hc]
        omega
      · rw [ei]
        cases b <;> simp [hii]
  | append l r hl hr ihl ihr =>
      intro s
      rw [runOps_append]
      obtain ⟨c1, i1⟩ := ihl s
      obtain ⟨c2, i2⟩ := ihr (runOps s l)
      exact ⟨by rw [c2, c1], by rw [i2, i1]⟩

/-- Claim C8: a balanced sequence of `StartBlock`/`EndBlock` calls (matching
indent/unindent flags), run from a state with no open blocks, ends with zero
open blocks and with the indent depth it started from. -/
theorem balanced_blocks_restore_counts (ops : List BlockOp) (s : GenState)
    (hb : BalancedOps ops) (h0 : s.BlockCount = 0) :
    (runOps s ops).BlockCount = 0 ∧
    (runOps s ops).IndentCount = s.IndentCount := by
  obtain ⟨c, i⟩ := balancedOps_preserve ops hb s
  exact ⟨by rw [c, h0], i⟩

/-- Witness for C8 at a concrete balanced sequence. -/
theorem balanced_blocks_restore_counts_witness :
    (runOps { FileContent := "", IndentCount := 2, BlockCount := 0,
              diagnostics := [], Path := "p" }
        [BlockOp.start true, BlockOp.finish true false]).BlockCount = 0 ∧
    (runOps { FileContent := "", IndentCount := 2, BlockCount := 0,
              diagnostics := [], Path := "p" }
        [BlockOp.start true, BlockOp.finish true false]).IndentCount = 2 :=
  balanced_blocks_restore_counts _ _
    (BalancedOps.wrap true false [] BalancedOps.nil) rfl

/-! ## Theorems about the declaration builder (`Variable`) -/

/-- Claim C6: a `Variable` call of type `FText`, marked `UPROPERTY`, with a
name outside `ReservedNames` (under the case-insensitive comparison
`TArray<FString>::Contains` performs), appends after the field declaration
the derived accessor: a `UFUNCTION` annotation line whose display label is
`"Get " ++ SplitName Name ++ " (Localized)"`, and the method line
`FText Get<Name>() ... return GetPropertyText(<Name>); ...`. -/
theorem Variable_ftext_accessor (s : GenState)
    (Name Value CommentText Specs : String)
    (hres : ReservedNamesContains Name = false) :
    (Variable s "FText" Name Value CommentText true Specs).FileContent
      = s.FileContent
        ++ (if CommentText.isEmpty then "" else
              tabs s.IndentCount ++ ("/** " ++ CommentText ++ " */") ++ "\n")
        ++ (tabs s.IndentCount ++ ("UPROPERTY(" ++ Specs ++ ")") ++ "\n")
        ++ (tabs s.IndentCount
            ++ ("FText " ++ Name
                ++ (if Value.isEmpty then "" else " = " ++ Value))
            ++ ";" ++ "\n")
        ++ (tabs s.IndentCount
            ++ ("UFUNCTION(BlueprintPure, meta=(DisplayName=\"Get "
                ++ SplitName Name ++ " (Localized)\"))") ++ "\n")
        ++ (tabs s.IndentCount
            ++ ("FText Get" ++ Name ++ "() \x7b return GetPropertyText("
                ++ Name ++ "); \x7d") ++ "\n") := by
  cases hC : CommentText.isEmpty <;> cases hV : Value.isEmpty <;>
    simp [Variable, Comment, UPropertyMacroLine, Line, hres, hC, hV,
      str_append_assoc]

/-- Witness for C6: the end-to-end `"Greeting"` scenario; the emitted label
is `"Get Greeting (Localized)"` and the accessor is `GetGreeting`. -/
theorem Variable_ftext_accessor_witness :
    ReservedNamesContains "Greeting" = false ∧
    (Variable { FileContent := "", IndentCount := 0, BlockCount := 0,
                diagnostics := [], Path := "p" }
        "FText" "Greeting" "" "" true "VisibleAnywhere").FileContent
      = "" ++ ""
        ++ (tabs 0 ++ ("UPROPERTY(" ++ "VisibleAnywhere" ++ ")") ++ "\n")
        ++ (tabs 0 ++ ("FText " ++ "Greeting" ++ "") ++ ";" ++ "\n")
        ++ (tabs 0
            ++ ("UFUNCTION(BlueprintPure, meta=(DisplayName=\"Get "
                ++ SplitName "Greeting" ++ " (Localized)\"))") ++ "\n")
        ++ (tabs 0
            ++ ("FText Get" ++ "Greeting" ++ "() \x7b return GetPropertyText("
                ++ "Greeting" ++ "); \x7d") ++ "\n") :=
  ⟨by decide,
   Variable_ftext_accessor _ "Greeting" "" "" "VisibleAnywhere" (by decide)⟩
